import Mathlib

/-!
Verification of the naev input-dispatch and ship-stat subsystems.

Definitions below are shallow embeddings of the C code in `src/input.c` and
`src/shipstats.h`.  Machine integers are modelled as `Nat`/`Int` (SDL tick
counters are monotone `Nat` timestamps), C doubles as `ℚ`, and side effects
as explicit effect lists.  The keybinding table (a C array of `Keybind`) is
modelled as a `List Keybind`.
-/

/-- KeybindType from player.h (declaration site not in the sources; the
constructor set is taken verbatim from the switch in
`input_getKeybindDisplay` / `input_keyAlreadyBound` in input.c). -/
inductive KeybindType where
  | null
  | keyboard
  | jaxispos
  | jaxisneg
  | jbutton
  | jhatUp
  | jhatDown
  | jhatLeft
  | jhatRight
deriving DecidableEq, Repr

/-- NMOD modifier bits (player.h conventions: one bit per canonical modifier,
`NMOD_ANY` is the match-all sentinel distinct from every bit combination). -/
def NMOD_NONE : Nat := 0

def NMOD_SHIFT : Nat := 1

def NMOD_CTRL : Nat := 2

def NMOD_ALT : Nat := 4

def NMOD_META : Nat := 8

def NMOD_ANY : Nat := 0xFFFF

/-- SDL left/right modifier bits (SDL_Keymod standard values), inputs of
`input_translateMod`. -/
def KMOD_LSHIFT : Nat := 0x0001

def KMOD_RSHIFT : Nat := 0x0002

def KMOD_LCTRL : Nat := 0x0040

def KMOD_RCTRL : Nat := 0x0080

def KMOD_LALT : Nat := 0x0100

def KMOD_RALT : Nat := 0x0200

def KMOD_LGUI : Nat := 0x0400

def KMOD_RGUI : Nat := 0x0800

/-- Keybind structure from input.c (`struct Keybind_`). -/
structure Keybind where
  disabled : Bool
  name : String
  type : KeybindType
  key : Int
  mod : Nat
deriving DecidableEq, Repr

/-- input_setKeybind from input.c: finds the first entry whose name matches
and overwrites its type/key/mod, with non-keyboard kinds getting mod
`NMOD_ANY` ("Non-keyboards get mod NMOD_ANY to always match").  Returns the
updated table plus a flag that is true exactly when the WARN path (no entry
matched) was taken. -/
def input_setKeybind : List Keybind → String → KeybindType → Int → Nat →
    List Keybind × Bool
  | [], _, _, _, _ => ([], true)
  | k :: rest, keybind, type, key, mod =>
    if k.name = keybind then
      ({ k with type := type, key := key,
                mod := if type = KeybindType.keyboard then mod else NMOD_ANY } :: rest,
       false)
    else
      let r := input_setKeybind rest keybind type key mod
      (k :: r.1, r.2)

/-- input_getKeybind from input.c: returns the key of the first entry whose
name matches together with its (type, mod); on a miss it takes the WARN path
and returns the sentinel key `(SDL_Keycode)-1` with no out-parameters
written (modelled as `none`). -/
def input_getKeybind : List Keybind → String → Int × Option (KeybindType × Nat)
  | [], _ => (-1, none)
  | k :: rest, keybind =>
    if k.name = keybind then (k.key, some (k.type, k.mod))
    else input_getKeybind rest keybind

/-- input_translateMod from input.c: collapses SDL left/right modifier bits
into the canonical NMOD bit-set. -/
def input_translateMod (mod : Nat) : Nat :=
  let m0 : Nat := 0
  let m1 := if mod &&& (KMOD_LSHIFT ||| KMOD_RSHIFT) ≠ 0 then m0 ||| NMOD_SHIFT else m0
  let m2 := if mod &&& (KMOD_LCTRL ||| KMOD_RCTRL) ≠ 0 then m1 ||| NMOD_CTRL else m1
  let m3 := if mod &&& (KMOD_LALT ||| KMOD_RALT) ≠ 0 then m2 ||| NMOD_ALT else m2
  let m4 := if mod &&& (KMOD_LGUI ||| KMOD_RGUI) ≠ 0 then m3 ||| NMOD_META else m3
  m4

/-- KEY_PRESS / KEY_RELEASE event values (input.h). -/
inductive KeyValue where
  | press
  | release
deriving DecidableEq, Repr

/-- Loop body of `input_keyevent` for one binding: a binding fires unless it
is a disabled press, and requires kind keyboard, matching key, and a mod that
equals the translated mask, is `NMOD_ANY`, or the event is a release. -/
def keybindFires (k : Keybind) (event : KeyValue) (key : Int) (modFiltered : Nat) : Bool :=
  if event = KeyValue.press ∧ k.disabled then false
  else if k.type = KeybindType.keyboard ∧ k.key = key then
    if k.mod = modFiltered ∨ k.mod = NMOD_ANY ∨ event = KeyValue.release then true
    else false
  else false

/-- input_keyevent from input.c: scans the whole binding table (no break on
first match) and returns the indices of all bindings for which `input_key`
is invoked. -/
def input_keyevent (table : List Keybind) (event : KeyValue) (key : Int) (mod : Nat) :
    List Nat :=
  let modFiltered := input_translateMod mod
  (List.range table.length).filter fun i =>
    match table.get? i with
    | some k => keybindFires k event key modFiltered
    | none => false

/-- Configuration values read by input.c (conf.repeat_delay, conf.repeat_freq
and conf.afterburn_sens are millisecond counts; conf.mouse_doubleclick is a
double in seconds). -/
structure Conf where
  repeat_delay : Nat
  repeat_freq : Nat
  afterburn_sens : Nat
  mouse_doubleclick : ℚ
deriving DecidableEq, Repr

/-- Game-state context queried by the INGAME/NOHYP/NODEAD guard macros in
input.c. -/
structure GameCtx where
  toolkitOpen : Bool
  playerExists : Bool
  hypPrep : Bool
  hypBegin : Bool
  hyperspace : Bool
  dead : Bool
deriving DecidableEq, Repr

/-- INGAME() macro: `!toolkit_isOpen()`. -/
def INGAME (c : GameCtx) : Bool := !c.toolkitOpen

/-- NOHYP() macro: player exists and is in none of the hyperspace phases. -/
def NOHYP (c : GameCtx) : Bool :=
  c.playerExists && !c.hypPrep && !c.hypBegin && !c.hyperspace

/-- NODEAD() macro: player exists and is not dead. -/
def NODEAD (c : GameCtx) : Bool := c.playerExists && !c.dead

/-- Mutable globals of input.c touched by `input_key`/`input_update`
(repeat_key is -1 when no key is recorded, mirroring the C sentinel). -/
structure InputState where
  repeat_key : Int
  repeat_keyTimer : Nat
  repeat_keyCounter : Nat
  input_accelLast : Nat
  input_accelButton : Bool
deriving DecidableEq, Repr

/-- Side effects emitted by the dispatcher and click handlers (calls into the
player/pilot/autonav collaborators). -/
inductive Effect where
  | restoreControl
  | playerAccel (v : ℚ)
  | playerAccelOver
  | setFlagAccel
  | rmFlagAccel
  | pilotAfterburn
  | pilotAfterburnOver
  | hookInput (name : String) (isPress : Bool)
  | playerTargetSet (pilot : Nat)
  | autonavPil (pilot : Nat)
  | playerBoard
  | playerHail
  | clickedPilotUsed
  | clickedPlanetUsed
  | clickedJumpUsed
  | autonavPos (x y : ℚ)
deriving DecidableEq, Repr

/-- input_key from input.c, sliced to the repeat-recording prelude and the
"accel" branch (the only branch the claims under verification mention; the
other name branches neither touch the modelled state fields nor emit the
modelled effects).  `now` stands for `SDL_GetTicks()`, `name` for
`input_keybinds[keynum].name`, and `kabs < 0` marks a digital event (the C
callers pass -1. for keyboard/button events). -/
def input_key (conf : Conf) (ctx : GameCtx) (now : Nat) (st : InputState)
    (keynum : Nat) (name : String) (value : KeyValue) (kabs : ℚ)
    (isRepeat : Bool) : InputState × List Effect :=
  let st1 :=
    if conf.repeat_delay ≠ 0 then
      if value = KeyValue.press ∧ isRepeat = false then
        { st with repeat_key := (keynum : Int), repeat_keyTimer := now,
                  repeat_keyCounter := 0 }
      else if value = KeyValue.release then
        { st with repeat_key := -1, repeat_keyTimer := 0, repeat_keyCounter := 0 }
      else st
    else st
  if name = "accel" ∧ isRepeat = false then
    if kabs ≥ 0 then
      ({ st1 with input_accelButton := true },
       [Effect.restoreControl, Effect.playerAccel kabs,
        Effect.hookInput name (value = KeyValue.press)])
    else
      let step :=
        if value = KeyValue.press then
          ({ st1 with input_accelButton := true },
           [Effect.restoreControl, Effect.setFlagAccel, Effect.playerAccel 1])
        else if value = KeyValue.release then
          ({ st1 with input_accelButton := false },
           [Effect.playerAccelOver, Effect.rmFlagAccel])
        else (st1, [])
      let afterburnEffs :=
        if conf.afterburn_sens ≠ 0 ∧ value = KeyValue.press ∧
            INGAME ctx ∧ NOHYP ctx ∧ NODEAD ctx ∧
            now - st1.input_accelLast ≤ conf.afterburn_sens then
          [Effect.pilotAfterburn]
        else if value = KeyValue.release then [Effect.pilotAfterburnOver]
        else []
      let st3 :=
        if value = KeyValue.press then { step.1 with input_accelLast := now }
        else step.1
      (st3, step.2 ++ afterburnEffs ++
            [Effect.hookInput name (value = KeyValue.press)])
  else
    (st1, [])

/-- input_update from input.c (the key-repeat part; the mouse-cursor timer is
a pure rendering concern and carries no modelled state).  Returns the updated
state and, when a repeat fires, the synthetic
`input_key(repeat_key, KEY_PRESS, 0., 1)` invocation it performs. -/
def input_update (conf : Conf) (now : Nat) (st : InputState) :
    InputState × Option (Int × KeyValue × ℚ × Bool) :=
  if conf.repeat_delay ≠ 0 then
    if st.repeat_key = -1 then (st, none)
    else if st.repeat_keyTimer + conf.repeat_delay +
              st.repeat_keyCounter * conf.repeat_freq > now then (st, none)
    else ({ st with repeat_keyCounter := st.repeat_keyCounter + 1 },
          some (st.repeat_key, KeyValue.press, 0, true))
  else (st, none)

/-- Targets resolvable by the border branch of `input_clickevent`. -/
inductive BorderTarget where
  | pilotT (id : Nat)
  | planetT (id : Int)
  | jumpT (id : Int)
  | asteroidT (field ast : Int)
  | nothing
deriving DecidableEq, Repr

/-- Border branch of input_clickevent (input.c, the block guarded by the
15-pixel edge test): `devPilot` and `devAsset` stand for
`ABS(angle_diff(mouseang, angp))` and `ABS(angle_diff(mouseang, ang))`, and
`thr` for `M_PI / 64` (kept as a parameter since π is irrational; every
property proved below holds for the actual threshold).  The pilot candidate
is discarded (set to `PLAYER_ID`) when its deviation exceeds the threshold or
an asset deviates strictly less, the asset candidates are all discarded when
the asset deviation exceeds the threshold, and the survivors are dispatched
in the order pilot, planet, jump, asteroid. -/
def borderClickResolve (thr devPilot devAsset : ℚ) (playerId pid : Nat)
    (pntid jpid astid fieid : Int) : BorderTarget :=
  let pid1 := if devPilot > thr ∨ devAsset < devPilot then playerId else pid
  let assets : Int × Int × Int × Int :=
    if devAsset > thr then (-1, -1, -1, -1) else (pntid, jpid, astid, fieid)
  if pid1 ≠ playerId then BorderTarget.pilotT pid1
  else if assets.1 ≥ 0 then BorderTarget.planetT assets.1
  else if assets.2.1 ≥ 0 then BorderTarget.jumpT assets.2.1
  else if assets.2.2.1 ≥ 0 then BorderTarget.asteroidT assets.2.2.2 assets.2.2.1
  else BorderTarget.nothing

/-- Right-button tail of input_clickPos (input.c): the three resolution
attempts are abstracted by their boolean outcomes (`pid != PLAYER_ID &&
input_clickedPilot(pid,1)` and the planet/jump analogues).  When none of them
succeeds, `player_autonavPos(x, y)` is issued exactly when the squared
distance from the player position `(px, py)` is at least `pow2(1500)`; the
branch returns 1 unconditionally (the `return 1` sits outside the distance
`if`). -/
def input_clickPos_right (pilotHit planetHit jumpHit : Bool) (px py x y : ℚ) :
    List Effect × Int :=
  if pilotHit then ([Effect.clickedPilotUsed], 1)
  else if planetHit then ([Effect.clickedPlanetUsed], 1)
  else if jumpHit then ([Effect.clickedJumpUsed], 1)
  else if (x - px) ^ 2 + (y - py) ^ 2 ≥ 1500 ^ 2 then
    ([Effect.autonavPos x y], 1)
  else ([], 1)

/-- Click-target identities stored in `input_lastClicked` (the C code stores
the entity pointer; distinct entities have distinct pointers). -/
inductive Clickable where
  | pilotC (id : Nat)
  | planetC (id : Nat)
  | jumpC (id : Nat)
  | asteroidC (field ast : Nat)
deriving DecidableEq, Repr

/-- Double-click globals of input.c (`input_lastClicked`, initially NULL,
modelled as `none`; `input_mouseClickLast` in ms). -/
structure ClickState where
  input_lastClicked : Option Clickable
  input_mouseClickLast : Nat
deriving DecidableEq, Repr

/-- Milliseconds in the double-click window:
`(int)(conf.mouse_doubleclick * 1000)` (C truncation; the value is only used
on the positive branch, where truncation is the floor). -/
def doubleClickWindowMs (conf : Conf) : Nat :=
  (⌊conf.mouse_doubleclick * 1000⌋).toNat

/-- input_clicked from input.c: records the last-clicked item and the click
time, unless double-click detection is disabled. -/
def input_clicked (conf : Conf) (now : Nat) (st : ClickState)
    (clicked : Clickable) : ClickState :=
  if conf.mouse_doubleclick ≤ 0 then st
  else { input_lastClicked := some clicked, input_mouseClickLast := now }

/-- input_isDoubleClick from input.c: every click is a double-click when the
threshold is non-positive, otherwise the click must arrive within the window
of the recorded click and hit the recorded item. -/
def input_isDoubleClick (conf : Conf) (now : Nat) (st : ClickState)
    (clicked : Clickable) : Bool :=
  if conf.mouse_doubleclick ≤ 0 then true
  else
    let threshold := st.input_mouseClickLast + doubleClickWindowMs conf
    if now ≤ threshold ∧ some clicked = st.input_lastClicked then true else false

/-- World facts queried by input_clickedPilot: the player id, the player's
current target, and the disabled/boardable flags of each pilot. -/
structure PilotWorld where
  playerId : Nat
  playerTarget : Nat
  pilotDisabled : Nat → Bool
  pilotBoardable : Nat → Bool

/-- input_clickedPilot from input.c: clicking the player is unused; an
autonav (right) click targets the pilot and starts pilot-follow autonav; a
left click on the already-targeted pilot that registers as a double-click
boards (disabled or boardable pilots) or hails, any other left click merely
targets; every used left click re-records the clicked pilot via
`input_clicked`. -/
def input_clickedPilot (conf : Conf) (w : PilotWorld) (now : Nat)
    (st : ClickState) (pilot : Nat) (autonav : Bool) :
    ClickState × List Effect × Int :=
  if pilot = w.playerId then (st, [], 0)
  else if autonav then
    (st, [Effect.playerTargetSet pilot, Effect.autonavPil pilot], 1)
  else
    let effs :=
      if pilot = w.playerTarget ∧
          input_isDoubleClick conf now st (Clickable.pilotC pilot) then
        if w.pilotDisabled pilot ∨ w.pilotBoardable pilot then [Effect.playerBoard]
        else [Effect.playerHail]
      else [Effect.playerTargetSet pilot]
    (input_clicked conf now st (Clickable.pilotC pilot), effs, 1)

/-- Ship-stat entry kinds relevant to the relative-stacking claim.  Modelled
from the spec: shipstats.c is not in src/ (only shipstats.h declares
`ss_statsModSingle`/`ss_statsModFromList`), so the apply operation follows
the spec's words: relative-double entries combine as
`stats.field *= (1 + entry.value * amountFactor)`. -/
inductive StatType where
  | speedMod
deriving DecidableEq, Repr

/-- ShipStatList entry (shipstats.h `struct ShipStatList_`, value as ℚ). -/
structure ShipStatEntry where
  target : Bool
  type : StatType
  value : ℚ
deriving DecidableEq, Repr

/-- ShipStats aggregate restricted to the relative-double field the claim
exercises (shipstats.h documents relative doubles as centered at 1.0). -/
structure ShipStatsAgg where
  speed_mod : ℚ
deriving DecidableEq, Repr

/-- Modelled from the spec: ss_statsInit sets every relative-double field to
the multiplicative identity 1.0 (shipstats.c not in src/). -/
def ss_statsInit : ShipStatsAgg := { speed_mod := 1 }

/-- Modelled from the spec: ss_statsModSingle applies one entry scaled by the
amount factor; the relative-double case multiplies the field by
`(1 + entry.value * amountFactor)` (shipstats.c not in src/). -/
def ss_statsModSingle (stats : ShipStatsAgg) (entry : ShipStatEntry)
    (amount : ℚ) : ShipStatsAgg :=
  match entry.type with
  | StatType.speedMod =>
    { stats with speed_mod := stats.speed_mod * (1 + entry.value * amount) }

/-- Modelled from the spec: ss_statsModFromList folds every entry of the list
through ss_statsModSingle in list order (shipstats.c not in src/). -/
def ss_statsModFromList (stats : ShipStatsAgg) (list : List ShipStatEntry)
    (amount : ℚ) : ShipStatsAgg :=
  list.foldl (fun s e => ss_statsModSingle s e amount) stats

/-- C9: applying two relative-double entries of value +0.10 to a stat field
starting at the multiplicative identity 1.0, via ss_statsModSingle through
ss_statsModFromList, yields multiplicative 1.21 and not the additive 1.20. -/
theorem stat_relative_stacking :
    (ss_statsModFromList ss_statsInit
      [⟨false, StatType.speedMod, 1/10⟩, ⟨false, StatType.speedMod, 1/10⟩]
      1).speed_mod = 121/100 ∧
    ((121 : ℚ)/100 ≠ 120/100) := by
  constructor
  · norm_num [ss_statsModFromList, ss_statsModSingle, ss_statsInit]
  · norm_num

/-- C5: on a right-click whose pilot, planet and jump resolutions all failed,
input_clickPos issues exactly one move-to-position autonav command when the
click is farther than 1500 world units from the ship, and no command when it
is closer. -/
theorem rightclick_autonav_pos (px py x y : ℚ) :
    ((x - px) ^ 2 + (y - py) ^ 2 > 1500 ^ 2 →
      (input_clickPos_right false false false px py x y).1 =
        [Effect.autonavPos x y]) ∧
    ((x - px) ^ 2 + (y - py) ^ 2 < 1500 ^ 2 →
      (input_clickPos_right false false false px py x y).1 = []) := by
  unfold input_clickPos_right
  constructor
  · intro h
    simp [le_of_lt h]
  · intro h
    simp [not_le.mpr h]

/-- C5 witness: a right-click 2000 units from the ship with nothing resolved
issues the single autonav command, and one 100 units away issues none. -/
theorem rightclick_autonav_pos_witness :
    (input_clickPos_right false false false 0 0 2000 0).1 =
      [Effect.autonavPos 2000 0] ∧
    (input_clickPos_right false false false 0 0 100 0).1 = [] :=
  ⟨(rightclick_autonav_pos 0 0 2000 0).1 (by norm_num),
   (rightclick_autonav_pos 0 0 100 0).2 (by norm_num)⟩

/-- C2 counterexample: binding "accel" to a joystick button with mask
NMOD_NONE and reading it back returns mask NMOD_ANY, so the set/get pair
does not round-trip the mask for non-keyboard kinds. -/
theorem setKeybind_roundtrip_counterexample :
    input_getKeybind
        (input_setKeybind [⟨false, "accel", KeybindType.null, 0, NMOD_NONE⟩]
          "accel" KeybindType.jbutton 5 NMOD_NONE).1 "accel"
      ≠ (5, some (KeybindType.jbutton, NMOD_NONE)) := by
  decide

/-- C2 amended: for every name present in the table, setKeybind followed by
getKeybind returns the kind and key unchanged, and the mask unchanged exactly
when the kind is Keyboard; for every other kind the stored and returned mask
is NMOD_ANY. -/
theorem setKeybind_getKeybind_roundtrip (table : List Keybind) (name : String)
    (type : KeybindType) (key : Int) (mod : Nat)
    (h : name ∈ table.map Keybind.name) :
    input_getKeybind (input_setKeybind table name type key mod).1 name =
      (key, some (type, if type = KeybindType.keyboard then mod else NMOD_ANY)) := by
  induction table with
  | nil => simp at h
  | cons k rest ih =>
    by_cases hk : k.name = name
    · simp [input_setKeybind, hk, input_getKeybind]
    · rw [List.map_cons, List.mem_cons] at h
      rcases h with h | h
      · exact absurd h.symm hk
      · simp only [input_setKeybind, if_neg hk, input_getKeybind]
        exact ih h

/-- C2 witness: a keyboard binding round-trips its exact triple. -/
theorem setKeybind_getKeybind_roundtrip_witness :
    input_getKeybind
        (input_setKeybind [⟨false, "accel", KeybindType.null, 0, NMOD_NONE⟩]
          "accel" KeybindType.keyboard 97 NMOD_CTRL).1 "accel"
      = (97, some (KeybindType.keyboard, NMOD_CTRL)) := by
  have h := setKeybind_getKeybind_roundtrip
    [⟨false, "accel", KeybindType.null, 0, NMOD_NONE⟩]
    "accel" KeybindType.keyboard 97 NMOD_CTRL (by decide)
  simpa using h

/-- C8: for a name not present in the table, setKeybind takes the warning
path and leaves every binding unchanged, and getKeybind takes the warning
path, mutates nothing (it is a pure read), and returns the sentinel key -1
with no binding data. -/
theorem unknown_keybind_miss (table : List Keybind) (name : String)
    (type : KeybindType) (key : Int) (mod : Nat)
    (h : ∀ k ∈ table, k.name ≠ name) :
    input_setKeybind table name type key mod = (table, true) ∧
    input_getKeybind table name = (-1, none) := by
  induction table with
  | nil => simp [input_setKeybind, input_getKeybind]
  | cons k rest ih =>
    have hk : k.name ≠ name := h k (List.mem_cons_self k rest)
    have hrest : ∀ k2 ∈ rest, k2.name ≠ name :=
      fun k2 hk2 => h k2 (List.mem_cons_of_mem k hk2)
    have := ih hrest
    simp only [input_setKeybind, if_neg hk, input_getKeybind, this.1, this.2]
    simp

/-- C8 witness: looking up an unbound name misses without mutating the
table. -/
theorem unknown_keybind_miss_witness :
    input_setKeybind [⟨false, "accel", KeybindType.null, 0, NMOD_NONE⟩]
        "warp" KeybindType.keyboard 97 NMOD_NONE
      = ([⟨false, "accel", KeybindType.null, 0, NMOD_NONE⟩], true) ∧
    input_getKeybind [⟨false, "accel", KeybindType.null, 0, NMOD_NONE⟩] "warp"
      = (-1, none) :=
  unknown_keybind_miss _ _ _ _ _ (by decide)

/-- Characterisation of the loop-body boolean of input_keyevent. -/
theorem keybindFires_iff (k : Keybind) (event : KeyValue) (key : Int)
    (modf : Nat) :
    keybindFires k event key modf = true ↔
      ((event = KeyValue.press → k.disabled = false) ∧
       k.type = KeybindType.keyboard ∧ k.key = key ∧
       (k.mod = modf ∨ k.mod = NMOD_ANY ∨ event = KeyValue.release)) := by
  unfold keybindFires
  split_ifs with h1 h2 h3 <;> simp_all

/-- C3: a binding at index i fires on a keyboard event (key, raw mod) if and
only if it is not a disabled press, its kind is Keyboard, its key matches,
and its mask equals the translated mask, is NMOD_ANY, or the event is a
release; the filter collects every such index (no break at the first
match), and a disabled binding suppresses only presses — its releases
still fire. -/
theorem keyevent_fire_iff (table : List Keybind) (event : KeyValue)
    (key : Int) (mod : Nat) (i : Nat) :
    i ∈ input_keyevent table event key mod ↔
      ∃ h : i < table.length,
        (event = KeyValue.press → (table.get ⟨i, h⟩).disabled = false) ∧
        (table.get ⟨i, h⟩).type = KeybindType.keyboard ∧
        (table.get ⟨i, h⟩).key = key ∧
        ((table.get ⟨i, h⟩).mod = input_translateMod mod ∨
         (table.get ⟨i, h⟩).mod = NMOD_ANY ∨ event = KeyValue.release) := by
  unfold input_keyevent
  rw [List.mem_filter, List.mem_range]
  constructor
  · rintro ⟨hlen, hp⟩
    refine ⟨hlen, ?_⟩
    rw [List.get?_eq_get hlen] at hp
    exact (keybindFires_iff _ _ _ _).mp hp
  · rintro ⟨hlen, hp⟩
    refine ⟨hlen, ?_⟩
    rw [List.get?_eq_get hlen]
    exact (keybindFires_iff _ _ _ _).mpr hp

/-- C4: in the border-click branch, the pilot candidate survives (and wins,
being dispatched first) exactly when its angular deviation does not exceed
the threshold and the asset deviation is not strictly smaller; a pilot
deviating beyond the threshold never wins, and an asset deviating beyond the
threshold is never resolved — the function consults no distances at all. -/
theorem border_click_angle (thr devPilot devAsset : ℚ) (playerId pid : Nat)
    (pntid jpid astid fieid : Int) (hpid : pid ≠ playerId) :
    (borderClickResolve thr devPilot devAsset playerId pid pntid jpid astid fieid
        = BorderTarget.pilotT pid ↔
      devPilot ≤ thr ∧ ¬ devAsset < devPilot) ∧
    (devPilot > thr →
      ∀ q, borderClickResolve thr devPilot devAsset playerId pid pntid jpid astid fieid
        ≠ BorderTarget.pilotT q) ∧
    (devAsset > thr →
      (∀ q, borderClickResolve thr devPilot devAsset playerId pid pntid jpid astid fieid
        ≠ BorderTarget.planetT q) ∧
      (∀ q, borderClickResolve thr devPilot devAsset playerId pid pntid jpid astid fieid
        ≠ BorderTarget.jumpT q) ∧
      (∀ f a, borderClickResolve thr devPilot devAsset playerId pid pntid jpid astid fieid
        ≠ BorderTarget.asteroidT f a)) := by
  by_cases hrej : thr < devPilot ∨ devAsset < devPilot
  · have hnotr : ¬ (devPilot ≤ thr ∧ ¬ devAsset < devPilot) := by
      rintro ⟨h1, h2⟩
      rcases hrej with h | h
      · exact absurd h (not_lt.mpr h1)
      · exact h2 h
    have hres : ∀ q, borderClickResolve thr devPilot devAsset playerId pid
        pntid jpid astid fieid ≠ BorderTarget.pilotT q := by
      intro q
      simp only [borderClickResolve, if_pos hrej]
      split_ifs <;> simp_all
    refine ⟨⟨fun hc => absurd hc (hres pid), fun hc => absurd hc hnotr⟩,
            fun _ => hres, fun hast => ?_⟩
    have hnothing : borderClickResolve thr devPilot devAsset playerId pid
        pntid jpid astid fieid = BorderTarget.nothing := by
      simp [borderClickResolve, if_pos hrej, if_pos hast]
    rw [hnothing]
    simp
  · have hres : borderClickResolve thr devPilot devAsset playerId pid
        pntid jpid astid fieid = BorderTarget.pilotT pid := by
      simp [borderClickResolve, if_neg hrej, hpid]
    push_neg at hrej
    refine ⟨?_, fun hc => absurd hrej.1 (not_le.mpr hc), fun hast => ?_⟩
    · rw [hres]
      simp only [true_iff]
      exact ⟨hrej.1, not_lt.mpr hrej.2⟩
    · rw [hres]
      simp

/-- C4 witness: with threshold 1/20 (within which π/64 falls), a pilot at
deviation 0.01 beats an asset at deviation 0.02, and the rejection clauses
hold at these concrete inputs. -/
theorem border_click_angle_witness :
    (borderClickResolve (1/20) (1/100) (2/100) 0 7 3 4 5 6
        = BorderTarget.pilotT 7 ↔
      (1 : ℚ)/100 ≤ 1/20 ∧ ¬ (2 : ℚ)/100 < 1/100) ∧
    ((1 : ℚ)/100 > 1/20 →
      ∀ q, borderClickResolve (1/20) (1/100) (2/100) 0 7 3 4 5 6
        ≠ BorderTarget.pilotT q) ∧
    ((2 : ℚ)/100 > 1/20 →
      (∀ q, borderClickResolve (1/20) (1/100) (2/100) 0 7 3 4 5 6
        ≠ BorderTarget.planetT q) ∧
      (∀ q, borderClickResolve (1/20) (1/100) (2/100) 0 7 3 4 5 6
        ≠ BorderTarget.jumpT q) ∧
      (∀ f a, borderClickResolve (1/20) (1/100) (2/100) 0 7 3 4 5 6
        ≠ BorderTarget.asteroidT f a)) :=
  border_click_angle (1/20) (1/100) (2/100) 0 7 3 4 5 6 (by decide)

/-- C7: with a positive double-click threshold, a click that resolves a
pilot followed by a second click on the same (already-targeted) pilot within
the window registers as a double-click and triggers the pilot's primary
action (board or hail) instead of a mere re-target; a second click beyond
the window, or on a different item, is not a double-click; with a
non-positive threshold every click counts as a double-click. -/
theorem doubleclick_detection (conf : Conf) (w : PilotWorld) (st0 : ClickState)
    (t1 t2 : Nat) (pilot : Nat)
    (hp : pilot ≠ w.playerId) (ht : pilot = w.playerTarget) :
    (0 < conf.mouse_doubleclick →
      (t2 ≤ t1 + doubleClickWindowMs conf →
        input_isDoubleClick conf t2 (input_clickedPilot conf w t1 st0 pilot false).1
            (Clickable.pilotC pilot) = true ∧
        ((input_clickedPilot conf w t2
            (input_clickedPilot conf w t1 st0 pilot false).1 pilot false).2.1
           = [Effect.playerBoard] ∨
         (input_clickedPilot conf w t2
            (input_clickedPilot conf w t1 st0 pilot false).1 pilot false).2.1
           = [Effect.playerHail])) ∧
      (t1 + doubleClickWindowMs conf < t2 →
        input_isDoubleClick conf t2 (input_clickedPilot conf w t1 st0 pilot false).1
            (Clickable.pilotC pilot) = false) ∧
      (∀ c : Clickable, c ≠ Clickable.pilotC pilot →
        input_isDoubleClick conf t2 (input_clickedPilot conf w t1 st0 pilot false).1
            c = false)) ∧
    (conf.mouse_doubleclick ≤ 0 →
      ∀ (now : Nat) (st : ClickState) (c : Clickable),
        input_isDoubleClick conf now st c = true) := by
  have hnp : 0 < conf.mouse_doubleclick → ¬ conf.mouse_doubleclick ≤ 0 :=
    fun h => not_le.mpr h
  constructor
  · intro hpos
    have hclicked : input_clicked conf t1 st0 (Clickable.pilotC pilot) =
        { input_lastClicked := some (Clickable.pilotC pilot),
          input_mouseClickLast := t1 } := by
      simp [input_clicked, hnp hpos]
    have hst1 : (input_clickedPilot conf w t1 st0 pilot false).1 =
        { input_lastClicked := some (Clickable.pilotC pilot),
          input_mouseClickLast := t1 } := by
      simp [input_clickedPilot, hp, hclicked]
    refine ⟨fun hin => ?_, fun hout => ?_, fun c hc => ?_⟩
    · have hdc2 : input_isDoubleClick conf t2
          ({ input_lastClicked := some (Clickable.pilotC pilot),
             input_mouseClickLast := t1 } : ClickState)
          (Clickable.pilotC pilot) = true := by
        simp [input_isDoubleClick, hnp hpos, hin]
      have hdc : input_isDoubleClick conf t2
          (input_clickedPilot conf w t1 st0 pilot false).1
          (Clickable.pilotC pilot) = true := by
        rw [hst1]
        exact hdc2
      refine ⟨hdc, ?_⟩
      by_cases hb : w.pilotDisabled pilot ∨ w.pilotBoardable pilot
      · left
        simp [input_clickedPilot, hp, ht.symm, hclicked, hdc2, hb]
      · right
        simp [input_clickedPilot, hp, ht.symm, hclicked, hdc2, hb]
    · rw [hst1]
      simp only [input_isDoubleClick, if_neg (hnp hpos)]
      rw [if_neg]
      rintro ⟨hle, -⟩
      exact absurd hle (not_le.mpr hout)
    · rw [hst1]
      simp only [input_isDoubleClick, if_neg (hnp hpos)]
      rw [if_neg]
      rintro ⟨-, hsame⟩
      exact hc (Option.some_injective _ hsame.symm ▸ rfl)
  · intro hz now st c
    simp [input_isDoubleClick, hz]

/-- C7 witness: with a 0.5 s threshold (500 ms window), clicking pilot 5 at
t=1000 and again at t=1200 on the same targeted pilot yields the concrete
double-click facts. -/
theorem doubleclick_detection_witness :
    (0 < (⟨0, 0, 0, 1/2⟩ : Conf).mouse_doubleclick →
      (1200 ≤ 1000 + doubleClickWindowMs ⟨0, 0, 0, 1/2⟩ →
        input_isDoubleClick ⟨0, 0, 0, 1/2⟩ 1200
            (input_clickedPilot ⟨0, 0, 0, 1/2⟩
              ⟨0, 5, fun _ => false, fun _ => false⟩ 1000 ⟨none, 0⟩ 5 false).1
            (Clickable.pilotC 5) = true ∧
        ((input_clickedPilot ⟨0, 0, 0, 1/2⟩
            ⟨0, 5, fun _ => false, fun _ => false⟩ 1200
            (input_clickedPilot ⟨0, 0, 0, 1/2⟩
              ⟨0, 5, fun _ => false, fun _ => false⟩ 1000 ⟨none, 0⟩ 5 false).1
            5 false).2.1 = [Effect.playerBoard] ∨
         (input_clickedPilot ⟨0, 0, 0, 1/2⟩
            ⟨0, 5, fun _ => false, fun _ => false⟩ 1200
            (input_clickedPilot ⟨0, 0, 0, 1/2⟩
              ⟨0, 5, fun _ => false, fun _ => false⟩ 1000 ⟨none, 0⟩ 5 false).1
            5 false).2.1 = [Effect.playerHail])) ∧
      (1000 + doubleClickWindowMs ⟨0, 0, 0, 1/2⟩ < 1200 →
        input_isDoubleClick ⟨0, 0, 0, 1/2⟩ 1200
            (input_clickedPilot ⟨0, 0, 0, 1/2⟩
              ⟨0, 5, fun _ => false, fun _ => false⟩ 1000 ⟨none, 0⟩ 5 false).1
            (Clickable.pilotC 5) = false) ∧
      (∀ c : Clickable, c ≠ Clickable.pilotC 5 →
        input_isDoubleClick ⟨0, 0, 0, 1/2⟩ 1200
            (input_clickedPilot ⟨0, 0, 0, 1/2⟩
              ⟨0, 5, fun _ => false, fun _ => false⟩ 1000 ⟨none, 0⟩ 5 false).1
            c = false)) ∧
    ((⟨0, 0, 0, 1/2⟩ : Conf).mouse_doubleclick ≤ 0 →
      ∀ (now : Nat) (st : ClickState) (c : Clickable),
        input_isDoubleClick ⟨0, 0, 0, 1/2⟩ now st c = true) :=
  doubleclick_detection ⟨0, 0, 0, 1/2⟩ ⟨0, 5, fun _ => false, fun _ => false⟩
    ⟨none, 0⟩ 1000 1200 5 (by decide) rfl

/-- C10: a successful double-click does not consume the last-clicked state —
the second click itself re-records the pilot and its timestamp, so a third
click on the same still-targeted pilot within the window of the second click
triggers the primary action again. -/
theorem repeated_doubleclick (conf : Conf) (w : PilotWorld) (st0 : ClickState)
    (t1 t2 t3 : Nat) (pilot : Nat)
    (hthr : 0 < conf.mouse_doubleclick)
    (hp : pilot ≠ w.playerId) (ht : pilot = w.playerTarget)
    (h12 : t2 ≤ t1 + doubleClickWindowMs conf)
    (h23 : t3 ≤ t2 + doubleClickWindowMs conf) :
    ((input_clickedPilot conf w t2
        (input_clickedPilot conf w t1 st0 pilot false).1 pilot false).2.1
       = [Effect.playerBoard] ∨
     (input_clickedPilot conf w t2
        (input_clickedPilot conf w t1 st0 pilot false).1 pilot false).2.1
       = [Effect.playerHail]) ∧
    (input_clickedPilot conf w t2
        (input_clickedPilot conf w t1 st0 pilot false).1 pilot false).1
      = { input_lastClicked := some (Clickable.pilotC pilot),
          input_mouseClickLast := t2 } ∧
    ((input_clickedPilot conf w t3
        (input_clickedPilot conf w t2
          (input_clickedPilot conf w t1 st0 pilot false).1 pilot false).1
        pilot false).2.1 = [Effect.playerBoard] ∨
     (input_clickedPilot conf w t3
        (input_clickedPilot conf w t2
          (input_clickedPilot conf w t1 st0 pilot false).1 pilot false).1
        pilot false).2.1 = [Effect.playerHail]) := by
  have hnp : ¬ conf.mouse_doubleclick ≤ 0 := not_le.mpr hthr
  have hclicked : ∀ (t : Nat) (st : ClickState),
      input_clicked conf t st (Clickable.pilotC pilot) =
        { input_lastClicked := some (Clickable.pilotC pilot),
          input_mouseClickLast := t } := by
    intro t st
    simp [input_clicked, hnp]
  have hstYes : ∀ (t tprev : Nat), t ≤ tprev + doubleClickWindowMs conf →
      (input_clickedPilot conf w t
          ({ input_lastClicked := some (Clickable.pilotC pilot),
             input_mouseClickLast := tprev } : ClickState) pilot false).1
        = { input_lastClicked := some (Clickable.pilotC pilot),
            input_mouseClickLast := t } ∧
      ((input_clickedPilot conf w t
          ({ input_lastClicked := some (Clickable.pilotC pilot),
             input_mouseClickLast := tprev } : ClickState) pilot false).2.1
         = [Effect.playerBoard] ∨
       (input_clickedPilot conf w t
          ({ input_lastClicked := some (Clickable.pilotC pilot),
             input_mouseClickLast := tprev } : ClickState) pilot false).2.1
         = [Effect.playerHail]) := by
    intro t tprev hle
    have hdc : input_isDoubleClick conf t
        ({ input_lastClicked := some (Clickable.pilotC pilot),
           input_mouseClickLast := tprev } : ClickState)
        (Clickable.pilotC pilot) = true := by
      simp [input_isDoubleClick, hnp, hle]
    constructor
    · simp [input_clickedPilot, hp, hclicked]
    · by_cases hb : w.pilotDisabled pilot ∨ w.pilotBoardable pilot
      · left
        simp [input_clickedPilot, hp, ht.symm, hdc, hb]
      · right
        simp [input_clickedPilot, hp, ht.symm, hdc, hb]
  have hst1 : (input_clickedPilot conf w t1 st0 pilot false).1 =
      { input_lastClicked := some (Clickable.pilotC pilot),
        input_mouseClickLast := t1 } := by
    simp [input_clickedPilot, hp, hclicked]
  rw [hst1]
  have h2 := hstYes t2 t1 h12
  rw [h2.1]
  exact ⟨h2.2, rfl, (hstYes t3 t2 h23).2⟩

/-- C10 witness: clicks on the targeted pilot 5 at t=1000, 1200 and 1400
with a 500 ms window double-click on both the second and the third click. -/
theorem repeated_doubleclick_witness :
    ((input_clickedPilot ⟨0, 0, 0, 1/2⟩ ⟨0, 5, fun _ => false, fun _ => false⟩
        1200 (input_clickedPilot ⟨0, 0, 0, 1/2⟩
          ⟨0, 5, fun _ => false, fun _ => false⟩ 1000 ⟨none, 0⟩ 5 false).1
        5 false).2.1 = [Effect.playerBoard] ∨
     (input_clickedPilot ⟨0, 0, 0, 1/2⟩ ⟨0, 5, fun _ => false, fun _ => false⟩
        1200 (input_clickedPilot ⟨0, 0, 0, 1/2⟩
          ⟨0, 5, fun _ => false, fun _ => false⟩ 1000 ⟨none, 0⟩ 5 false).1
        5 false).2.1 = [Effect.playerHail]) ∧
    (input_clickedPilot ⟨0, 0, 0, 1/2⟩ ⟨0, 5, fun _ => false, fun _ => false⟩
        1200 (input_clickedPilot ⟨0, 0, 0, 1/2⟩
          ⟨0, 5, fun _ => false, fun _ => false⟩ 1000 ⟨none, 0⟩ 5 false).1
        5 false).1
      = { input_lastClicked := some (Clickable.pilotC 5),
          input_mouseClickLast := 1200 } ∧
    ((input_clickedPilot ⟨0, 0, 0, 1/2⟩ ⟨0, 5, fun _ => false, fun _ => false⟩
        1400 (input_clickedPilot ⟨0, 0, 0, 1/2⟩
          ⟨0, 5, fun _ => false, fun _ => false⟩ 1200
          (input_clickedPilot ⟨0, 0, 0, 1/2⟩
            ⟨0, 5, fun _ => false, fun _ => false⟩ 1000 ⟨none, 0⟩ 5 false).1
          5 false).1 5 false).2.1 = [Effect.playerBoard] ∨
     (input_clickedPilot ⟨0, 0, 0, 1/2⟩ ⟨0, 5, fun _ => false, fun _ => false⟩
        1400 (input_clickedPilot ⟨0, 0, 0, 1/2⟩
          ⟨0, 5, fun _ => false, fun _ => false⟩ 1200
          (input_clickedPilot ⟨0, 0, 0, 1/2⟩
            ⟨0, 5, fun _ => false, fun _ => false⟩ 1000 ⟨none, 0⟩ 5 false).1
          5 false).1 5 false).2.1 = [Effect.playerHail]) :=
  repeated_doubleclick ⟨0, 0, 0, 1/2⟩ ⟨0, 5, fun _ => false, fun _ => false⟩
    ⟨none, 0⟩ 1000 1200 1400 5 (by norm_num) (by decide) rfl
    (by
      have h : doubleClickWindowMs ⟨0, 0, 0, 1/2⟩ = 500 := by
        norm_num [doubleClickWindowMs]
        rfl
      omega)
    (by
      have h : doubleClickWindowMs ⟨0, 0, 0, 1/2⟩ = 500 := by
        norm_num [doubleClickWindowMs]
        rfl
      omega)

/-- C6: with a nonzero repeat delay, a non-repeat press records
(keynum, now, counter=0) and a release clears the record; the per-frame tick
re-invokes the recorded key as a synthetic repeat press (value KEY_PRESS,
kabs 0, repeat flag set) and increments the counter whenever
now - recordedTime exceeds delay + counter*frequency; with delay = 0 the
tick never fires and input_key never touches the repeat record. -/
theorem input_repeat_timer (conf : Conf) (ctx : GameCtx) (now : Nat)
    (st : InputState) (keynum : Nat) (name : String) (kabs : ℚ) :
    (conf.repeat_delay ≠ 0 →
      ((input_key conf ctx now st keynum name KeyValue.press kabs false).1.repeat_key
          = (keynum : Int) ∧
       (input_key conf ctx now st keynum name KeyValue.press kabs false).1.repeat_keyTimer
          = now ∧
       (input_key conf ctx now st keynum name KeyValue.press kabs false).1.repeat_keyCounter
          = 0) ∧
      ((input_key conf ctx now st keynum name KeyValue.release kabs false).1.repeat_key
          = -1 ∧
       (input_key conf ctx now st keynum name KeyValue.release kabs false).1.repeat_keyTimer
          = 0 ∧
       (input_key conf ctx now st keynum name KeyValue.release kabs false).1.repeat_keyCounter
          = 0) ∧
      (st.repeat_key ≠ -1 →
        now - st.repeat_keyTimer >
            conf.repeat_delay + st.repeat_keyCounter * conf.repeat_freq →
        input_update conf now st =
          ({ st with repeat_keyCounter := st.repeat_keyCounter + 1 },
           some (st.repeat_key, KeyValue.press, 0, true)))) ∧
    (conf.repeat_delay = 0 →
      input_update conf now st = (st, none) ∧
      ∀ (value : KeyValue) (isRepeat : Bool),
        (input_key conf ctx now st keynum name value kabs isRepeat).1.repeat_key
          = st.repeat_key ∧
        (input_key conf ctx now st keynum name value kabs isRepeat).1.repeat_keyTimer
          = st.repeat_keyTimer ∧
        (input_key conf ctx now st keynum name value kabs isRepeat).1.repeat_keyCounter
          = st.repeat_keyCounter) := by
  constructor
  · intro hdelay
    refine ⟨?_, ?_, fun hkey htime => ?_⟩
    · simp only [input_key, hdelay]
      split_ifs <;> simp_all
    · simp only [input_key, hdelay]
      split_ifs <;> simp_all
    · have h1 : ¬ st.repeat_keyTimer + conf.repeat_delay +
          st.repeat_keyCounter * conf.repeat_freq > now := by omega
      simp [input_update, hdelay, hkey, h1]
  · intro hz
    refine ⟨by simp [input_update, hz], fun value isRepeat => ?_⟩
    simp only [input_key, hz]
    split_ifs <;> simp_all

/-- C6 witness: with delay 400 ms and frequency 100 ms, a press of keybind 3
at t=2000 records it, a release clears it, a recorded press from t=2000 fires
at t=2500 with its counter stepping from 0 to 1, and with delay 0 the tick
does nothing. -/
theorem input_repeat_timer_witness :
    ((400 : Nat) ≠ 0 →
      ((input_key ⟨400, 100, 0, 0⟩ ⟨false, true, false, false, false, false⟩
          2000 ⟨-1, 0, 0, 0, false⟩ 3 "left" KeyValue.press (-1) false).1.repeat_key
          = (3 : Int) ∧
       (input_key ⟨400, 100, 0, 0⟩ ⟨false, true, false, false, false, false⟩
          2000 ⟨-1, 0, 0, 0, false⟩ 3 "left" KeyValue.press (-1) false).1.repeat_keyTimer
          = 2000 ∧
       (input_key ⟨400, 100, 0, 0⟩ ⟨false, true, false, false, false, false⟩
          2000 ⟨-1, 0, 0, 0, false⟩ 3 "left" KeyValue.press (-1) false).1.repeat_keyCounter
          = 0) ∧
      ((input_key ⟨400, 100, 0, 0⟩ ⟨false, true, false, false, false, false⟩
          2000 ⟨-1, 0, 0, 0, false⟩ 3 "left" KeyValue.release (-1) false).1.repeat_key
          = -1 ∧
       (input_key ⟨400, 100, 0, 0⟩ ⟨false, true, false, false, false, false⟩
          2000 ⟨-1, 0, 0, 0, false⟩ 3 "left" KeyValue.release (-1) false).1.repeat_keyTimer
          = 0 ∧
       (input_key ⟨400, 100, 0, 0⟩ ⟨false, true, false, false, false, false⟩
          2000 ⟨-1, 0, 0, 0, false⟩ 3 "left" KeyValue.release (-1) false).1.repeat_keyCounter
          = 0) ∧
      ((⟨-1, 0, 0, 0, false⟩ : InputState).repeat_key ≠ -1 →
        2000 - (⟨-1, 0, 0, 0, false⟩ : InputState).repeat_keyTimer >
            400 + (⟨-1, 0, 0, 0, false⟩ : InputState).repeat_keyCounter * 100 →
        input_update ⟨400, 100, 0, 0⟩ 2000 ⟨-1, 0, 0, 0, false⟩ =
          ({ (⟨-1, 0, 0, 0, false⟩ : InputState) with
              repeat_keyCounter := (⟨-1, 0, 0, 0, false⟩ : InputState).repeat_keyCounter + 1 },
           some ((⟨-1, 0, 0, 0, false⟩ : InputState).repeat_key, KeyValue.press, 0, true)))) ∧
    ((400 : Nat) = 0 →
      input_update ⟨400, 100, 0, 0⟩ 2000 ⟨-1, 0, 0, 0, false⟩ =
        (⟨-1, 0, 0, 0, false⟩, none) ∧
      ∀ (value : KeyValue) (isRepeat : Bool),
        (input_key ⟨400, 100, 0, 0⟩ ⟨false, true, false, false, false, false⟩
          2000 ⟨-1, 0, 0, 0, false⟩ 3 "left" value (-1) isRepeat).1.repeat_key
          = (⟨-1, 0, 0, 0, false⟩ : InputState).repeat_key ∧
        (input_key ⟨400, 100, 0, 0⟩ ⟨false, true, false, false, false, false⟩
          2000 ⟨-1, 0, 0, 0, false⟩ 3 "left" value (-1) isRepeat).1.repeat_keyTimer
          = (⟨-1, 0, 0, 0, false⟩ : InputState).repeat_keyTimer ∧
        (input_key ⟨400, 100, 0, 0⟩ ⟨false, true, false, false, false, false⟩
          2000 ⟨-1, 0, 0, 0, false⟩ 3 "left" value (-1) isRepeat).1.repeat_keyCounter
          = (⟨-1, 0, 0, 0, false⟩ : InputState).repeat_keyCounter) :=
  input_repeat_timer ⟨400, 100, 0, 0⟩ ⟨false, true, false, false, false, false⟩
    2000 ⟨-1, 0, 0, 0, false⟩ 3 "left" (-1)

/-- C1 counterexample: at a concrete double-tap press (afterburn window
500 ms, previous press 100 ms ago, in-game, not hyperspacing, not dead) the
dispatcher emits the afterburner-start effect and ALSO the plain-acceleration
effects (PLAYER_ACCEL flag and throttle 1), so the afterburner does not fire
"instead of" plain acceleration; and an analog (kabs ≥ 0) release of accel
emits no afterburner-stop effect, so not every release stops the
afterburner. -/
theorem accel_double_tap_counterexample :
    (Effect.pilotAfterburn ∈
       (input_key ⟨0, 0, 500, 0⟩ ⟨false, true, false, false, false, false⟩
         200 ⟨-1, 0, 0, 100, false⟩ 0 "accel" KeyValue.press (-1) false).2 ∧
     Effect.playerAccel 1 ∈
       (input_key ⟨0, 0, 500, 0⟩ ⟨false, true, false, false, false, false⟩
         200 ⟨-1, 0, 0, 100, false⟩ 0 "accel" KeyValue.press (-1) false).2 ∧
     Effect.setFlagAccel ∈
       (input_key ⟨0, 0, 500, 0⟩ ⟨false, true, false, false, false, false⟩
         200 ⟨-1, 0, 0, 100, false⟩ 0 "accel" KeyValue.press (-1) false).2) ∧
    Effect.pilotAfterburnOver ∉
       (input_key ⟨0, 0, 500, 0⟩ ⟨false, true, false, false, false, false⟩
         300 ⟨-1, 0, 0, 200, true⟩ 0 "accel" KeyValue.release 0 false).2 := by
  decide

/-- C1 amended: a digital non-repeat press of accel inside the afterburn
window (window configured nonzero, in-game, not hyperspacing, not dead)
triggers the afterburner-start effect in addition to the plain-acceleration
effects, which also fire; and every digital non-repeat release of accel
emits the afterburner-stop effect. -/
theorem accel_double_tap (conf : Conf) (ctx : GameCtx) (now : Nat)
    (st : InputState) (keynum : Nat) (kabs : ℚ)
    (hsens : conf.afterburn_sens ≠ 0)
    (hin : INGAME ctx = true) (hhyp : NOHYP ctx = true)
    (hdead : NODEAD ctx = true)
    (hwin : now - st.input_accelLast ≤ conf.afterburn_sens)
    (hdig : kabs < 0) :
    (Effect.pilotAfterburn ∈
       (input_key conf ctx now st keynum "accel" KeyValue.press kabs false).2 ∧
     Effect.playerAccel 1 ∈
       (input_key conf ctx now st keynum "accel" KeyValue.press kabs false).2 ∧
     Effect.setFlagAccel ∈
       (input_key conf ctx now st keynum "accel" KeyValue.press kabs false).2) ∧
    (∀ (now2 : Nat) (st2 : InputState) (kabs2 : ℚ), kabs2 < 0 →
      Effect.pilotAfterburnOver ∈
        (input_key conf ctx now2 st2 keynum "accel" KeyValue.release kabs2
          false).2) := by
  have hkabs : ¬ kabs ≥ 0 := not_le.mpr hdig
  constructor
  · by_cases hrd : conf.repeat_delay = 0 <;>
      simp [input_key, hkabs, hsens, hin, hhyp, hdead, hwin, hrd]
  · intro now2 st2 kabs2 hdig2
    have hkabs2 : ¬ kabs2 ≥ 0 := not_le.mpr hdig2
    by_cases hrd : conf.repeat_delay = 0 <;>
      simp [input_key, hkabs2, hrd]

/-- C1 witness: the amended behavior at the counterexample's concrete
double-tap input, plus the digital release emitting afterburner-stop. -/
theorem accel_double_tap_witness :
    (Effect.pilotAfterburn ∈
       (input_key ⟨0, 0, 500, 0⟩ ⟨false, true, false, false, false, false⟩
         200 ⟨-1, 0, 0, 100, false⟩ 0 "accel" KeyValue.press (-1) false).2 ∧
     Effect.playerAccel 1 ∈
       (input_key ⟨0, 0, 500, 0⟩ ⟨false, true, false, false, false, false⟩
         200 ⟨-1, 0, 0, 100, false⟩ 0 "accel" KeyValue.press (-1) false).2 ∧
     Effect.setFlagAccel ∈
       (input_key ⟨0, 0, 500, 0⟩ ⟨false, true, false, false, false, false⟩
         200 ⟨-1, 0, 0, 100, false⟩ 0 "accel" KeyValue.press (-1) false).2) ∧
    (∀ (now2 : Nat) (st2 : InputState) (kabs2 : ℚ), kabs2 < 0 →
      Effect.pilotAfterburnOver ∈
        (input_key ⟨0, 0, 500, 0⟩ ⟨false, true, false, false, false, false⟩
          now2 st2 0 "accel" KeyValue.release kabs2 false).2) :=
  accel_double_tap ⟨0, 0, 500, 0⟩ ⟨false, true, false, false, false, false⟩
    200 ⟨-1, 0, 0, 100, false⟩ 0 (-1) (by decide) rfl rfl rfl (by decide)
    (by norm_num)
